import Mathlib

/-!
Verification of the rfluids state-resolution and caching core against its
natural-language specification.  Machine floats (`f64`) are embedded as exact
rationals (`ℚ`); fallible Rust functions returning `Result` are embedded as
`Except`; Rust panics (`unwrap` on an error) are embedded as `Option.none`.
-/

namespace Rfluids

/-! ## Phase registry (src/rfluids/src/enums/phases.rs) -/

/-- Phase states of fluids and mixtures (`Phase` enum, discriminants 0..8). -/
inductive Phase
  | liquid
  | supercritical
  | supercriticalGas
  | supercriticalLiquid
  | criticalPoint
  | gas
  | twoPhase
  | unknown
  | notImposed
deriving DecidableEq, Fintype

/-- Source `impl From<Phase> for u8`: the explicit discriminant of each variant. -/
def phaseCode : Phase → Nat
  | .liquid => 0
  | .supercritical => 1
  | .supercriticalGas => 2
  | .supercriticalLiquid => 3
  | .criticalPoint => 4
  | .gas => 5
  | .twoPhase => 6
  | .unknown => 7
  | .notImposed => 8

/-- Source `Phase::from_repr` (derived by `FromRepr`): the variant with the given
discriminant, if any. -/
def phaseFromRepr : Nat → Option Phase
  | 0 => some .liquid
  | 1 => some .supercritical
  | 2 => some .supercriticalGas
  | 3 => some .supercriticalLiquid
  | 4 => some .criticalPoint
  | 5 => some .gas
  | 6 => some .twoPhase
  | 7 => some .unknown
  | 8 => some .notImposed
  | _ => none

/-- Error type of the failed conversions (`strum::ParseError`). -/
inductive ParseError
  | variantNotFound
deriving DecidableEq

/-- Source `impl TryFrom<u8> for Phase`:
`Phase::from_repr(value).ok_or(strum::ParseError::VariantNotFound)`. -/
def phaseTryFromU8 (value : Nat) : Except ParseError Phase :=
  match phaseFromRepr value with
  | some p => .ok p
  | none => .error .variantNotFound

/-- Source `f64::trunc`: rounding toward zero, on the rational embedding of `f64`. -/
def truncTowardZero (v : ℚ) : ℤ :=
  if 0 ≤ v then ⌊v⌋ else ⌈v⌉

/-- Source `impl TryFrom<f64> for Phase` (same generic body as `io::try_from`):
truncate toward zero, reject values outside the `u8` range, then look the
truncated code up via `TryFrom<u8>`.  Note that the range test compares the
truncated value against `u8::MIN as f64 = 0.0` and `u8::MAX as f64 = 255.0`. -/
def phaseTryFromF64 (value : ℚ) : Except ParseError Phase :=
  let val := truncTowardZero value
  if val < 0 ∨ 255 < val then .error .variantNotFound
  else phaseTryFromU8 val.toNat

/-- Canonical string of each variant (`AsRefStr` with `to_string = ...`). -/
def phaseAsRef : Phase → String
  | .liquid => "phase_liquid"
  | .supercritical => "phase_supercritical"
  | .supercriticalGas => "phase_supercritical_gas"
  | .supercriticalLiquid => "phase_supercritical_liquid"
  | .criticalPoint => "phase_critical_point"
  | .gas => "phase_gas"
  | .twoPhase => "phase_twophase"
  | .unknown => "phase_unknown"
  | .notImposed => "phase_not_imposed"

/-- All accepted spellings of each variant (`to_string` plus the `serialize`
aliases of the `EnumString` derive). -/
def phaseAliases : Phase → List String
  | .liquid => ["phase_liquid", "liquid"]
  | .supercritical => ["phase_supercritical", "supercritical"]
  | .supercriticalGas =>
      ["phase_supercritical_gas", "supercritical_gas", "SupercriticalGas"]
  | .supercriticalLiquid =>
      ["phase_supercritical_liquid", "supercritical_liquid", "SupercriticalLiquid"]
  | .criticalPoint => ["phase_critical_point", "critical_point", "CriticalPoint"]
  | .gas => ["phase_gas", "gas"]
  | .twoPhase => ["phase_twophase", "phase_two_phase", "two_phase", "TwoPhase"]
  | .unknown => ["phase_unknown", "unknown"]
  | .notImposed => ["phase_not_imposed", "not_imposed", "NotImposed"]

/-- Every `Phase` variant, in declaration order. -/
def allPhases : List Phase :=
  [.liquid, .supercritical, .supercriticalGas, .supercriticalLiquid,
   .criticalPoint, .gas, .twoPhase, .unknown, .notImposed]

/-- ASCII-lowercased character data of a string. -/
def asciiLower (s : String) : List Char :=
  s.data.map Char.toLower

/-- Source `Phase::from_str` (derived by `EnumString` with `ascii_case_insensitive`):
the first variant one of whose spellings equals the input up to ASCII case. -/
def phaseFromStr (s : String) : Except ParseError Phase :=
  match allPhases.find? (fun p =>
      (phaseAliases p).any fun a => decide (asciiLower a = asciiLower s)) with
  | some p => .ok p
  | none => .error .variantNotFound

theorem phaseFromRepr_eq_some (n : Nat) (p : Phase) :
    phaseFromRepr n = some p ↔ n = phaseCode p := by
  rcases n with _|_|_|_|_|_|_|_|_|n <;>
    cases p <;> simp [phaseFromRepr, phaseCode] <;> omega

theorem phaseFromRepr_eq_none (n : Nat) :
    phaseFromRepr n = none ↔ 9 ≤ n := by
  rcases n with _|_|_|_|_|_|_|_|_|n <;> simp [phaseFromRepr] <;> omega

theorem phaseCode_le_eight (p : Phase) : phaseCode p ≤ 8 := by
  cases p <;> simp [phaseCode]

/-- C7: `Phase::try_from(v: f64)` truncates `v` toward zero; it returns
`Ok p` exactly when the truncated value equals the numeric code of `p`, and
fails with the single variant-not-found error exactly when the truncated value
matches no registered code — i.e. when it is negative or exceeds 8 (values
above 255 fail the `u8` range check, values in 9..=255 fail the lookup, with
the same error). -/
theorem phase_try_from_f64_characterization (v : ℚ) :
    (∀ p : Phase, phaseTryFromF64 v = .ok p ↔ truncTowardZero v = (phaseCode p : ℤ))
    ∧ (phaseTryFromF64 v = .error .variantNotFound ↔
        (truncTowardZero v < 0 ∨ 8 < truncTowardZero v)) := by
  unfold phaseTryFromF64
  by_cases hrange : truncTowardZero v < 0 ∨ 255 < truncTowardZero v
  · rw [if_pos hrange]
    constructor
    · intro p
      constructor
      · intro h
        exact absurd h (by simp)
      · intro h
        have := phaseCode_le_eight p
        omega
    · simp only [true_iff]
      omega
  · rw [if_neg hrange]
    push_neg at hrange
    obtain ⟨h0, h255⟩ := hrange
    unfold phaseTryFromU8
    rcases hfr : phaseFromRepr (truncTowardZero v).toNat with _ | p0
    · rw [phaseFromRepr_eq_none] at hfr
      constructor
      · intro p
        constructor
        · intro h
          exact absurd h (by simp)
        · intro h
          have := phaseCode_le_eight p
          omega
      · simp only [true_iff]
        omega
    · rw [phaseFromRepr_eq_some] at hfr
      have hv : truncTowardZero v = (phaseCode p0 : ℤ) := by omega
      constructor
      · intro p
        constructor
        · intro h
          have hp : p0 = p := by
            simpa using h
          rw [← hp]
          exact hv
        · intro h
          have hcode : phaseCode p0 = phaseCode p := by omega
          have hp : p0 = p := by
            revert hcode
            cases p0 <;> cases p <;> simp [phaseCode]
          rw [hp]
      · constructor
        · intro h
          exact absurd h (by simp)
        · intro h
          have := phaseCode_le_eight p0
          omega

/-- Witness for C7 at `v = 11/2`: truncation gives 5, the code of `Gas`. -/
theorem phase_try_from_f64_characterization_witness :
    phaseTryFromF64 (11/2 : ℚ) = .ok Phase.gas :=
  ((phase_try_from_f64_characterization (11/2)).1 Phase.gas).mpr
    (by norm_num [truncTowardZero, phaseCode])

/-- C8: the phase registry round-trips: for every variant `p`,
`Phase::try_from(u8::from(p)) == Ok(p)` and
`Phase::from_str(p.as_ref()) == Ok(p)`; moreover the numeric code and the
canonical name each determine the variant uniquely. -/
theorem phase_roundtrip :
    (∀ p : Phase, phaseTryFromU8 (phaseCode p) = .ok p)
    ∧ (∀ p : Phase, phaseFromStr (phaseAsRef p) = .ok p)
    ∧ (∀ p q : Phase, phaseCode p = phaseCode q → p = q)
    ∧ (∀ p q : Phase, phaseAsRef p = phaseAsRef q → p = q) := by
  refine ⟨fun p => by cases p <;> rfl, fun p => by cases p <;> rfl, ?_, ?_⟩
  · decide
  · decide

/-- Witness for C8 at `Phase.gas`. -/
theorem phase_roundtrip_witness :
    phaseTryFromU8 (phaseCode Phase.gas) = .ok Phase.gas ∧ Phase.gas = Phase.gas :=
  ⟨phase_roundtrip.1 Phase.gas, phase_roundtrip.2.2.1 Phase.gas Phase.gas rfl⟩

/-- C10: edge case of truncate-then-validate: every `v` with `-1 < v < 0`
truncates toward zero to (negative) zero, passes the lower range check and is
looked up as code 0, yielding `Ok(Phase::Liquid)`; strictly negative inputs
are rejected only at or below `-1`. -/
theorem phase_try_from_f64_negative_zero_edge :
    (∀ v : ℚ, -1 < v → v < 0 → phaseTryFromF64 v = .ok Phase.liquid)
    ∧ (∀ v : ℚ, v ≤ -1 → phaseTryFromF64 v = .error .variantNotFound) := by
  constructor
  · intro v h1 h0
    have hnot : ¬ 0 ≤ v := not_le.mpr h0
    have htr : truncTowardZero v = 0 := by
      unfold truncTowardZero
      rw [if_neg hnot]
      rw [Int.ceil_eq_iff]
      constructor
      · simpa using h1
      · simpa using le_of_lt h0
    unfold phaseTryFromF64
    rw [htr]
    rfl
  · intro v h1
    have hnot : ¬ 0 ≤ v := by
      intro h
      linarith
    have htr : truncTowardZero v ≤ -1 := by
      unfold truncTowardZero
      rw [if_neg hnot]
      rw [Int.ceil_le]
      simpa using h1
    unfold phaseTryFromF64
    rw [if_pos (Or.inl (by omega))]

/-- Witness for C10 at `v = -1/2` and `v = -1`. -/
theorem phase_try_from_f64_negative_zero_edge_witness :
    phaseTryFromF64 (-1/2 : ℚ) = .ok Phase.liquid
    ∧ phaseTryFromF64 (-1 : ℚ) = .error .variantNotFound :=
  ⟨phase_try_from_f64_negative_zero_edge.1 (-1/2) (by norm_num) (by norm_num),
   phase_try_from_f64_negative_zero_edge.2 (-1) (by norm_num)⟩

/-! ## Custom mixtures (src/rfluids/src/substance/custom_mix.rs)

The Rust `HashMap<CustomMixComponent, Ratio>` is embedded as an association
list with pairwise-distinct keys; `Ratio` stores its SI magnitude, embedded
as `ℚ`. -/

/-- Modelled from the spec: the refrigerant category registry lives in the
absent source file `substance/refrigerant.rs`; per §3 a refrigerant is either
categorized as pure or as a predefined blend. -/
inductive RefrigerantCategory
  | pure
  | predefinedBlend
deriving DecidableEq

/-- Modelled from the spec: representative refrigerants of the absent
`substance/refrigerant.rs` registry; per the repository tests R32 and R125
are pure refrigerants while R407C is a predefined blend. -/
inductive Refrigerant
  | R32
  | R125
  | R407C
deriving DecidableEq, Fintype

/-- Source `Refrigerant::category` for the representative refrigerants. -/
def Refrigerant.category : Refrigerant → RefrigerantCategory
  | .R32 => .pure
  | .R125 => .pure
  | .R407C => .predefinedBlend

/-- Modelled from the spec: representative pure substances of the absent
`substance/pure.rs` registry (unrestricted as mixture components). -/
inductive Pure
  | water
  | ethanol
deriving DecidableEq, Fintype

/-- Source `CustomMixComponent`: a pure substance or a (pure) refrigerant. -/
inductive CustomMixComponent
  | pure : Pure → CustomMixComponent
  | refrigerant : Refrigerant → CustomMixComponent
deriving DecidableEq

/-- Source `CustomMixError` (from `error.rs`, absent from src but fixed by the spec
§7 and the variants named in `custom_mix.rs`). -/
inductive CustomMixError
  | notEnoughComponents
  | invalidComponent
  | invalidFraction
  | invalidFractionsSum
deriving DecidableEq

/-- Embedding of `HashMap<CustomMixComponent, Ratio>` as an association list
(keys are made distinct by hypothesis where it matters). -/
abbrev Components := List (CustomMixComponent × ℚ)

/-- Source `CustomMix`: a component map tagged mole-based or mass-based. -/
inductive CustomMix
  | moleBased (components : Components)
  | massBased (components : Components)
deriving DecidableEq

/-- Sum of the fractions of a component map. -/
def fractionSum (components : Components) : ℚ :=
  (components.map fun c => c.2).sum

/-- The component test of `CustomMix::validate`: a refrigerant whose category
is not pure (`matches!(c, Refrigerant(r) if r.category() != Pure)`). -/
def isNonPureRefrigerant : CustomMixComponent → Bool
  | .refrigerant r => decide (r.category ≠ RefrigerantCategory.pure)
  | .pure _ => false

/-- Source `CustomMix::validate`: the four checks, in source order, first failure
winning.  `1e-6` is the exact rational tolerance of the source literal. -/
def CustomMix.validate (components : Components) : Except CustomMixError Unit :=
  if components.length < 2 then
    .error .notEnoughComponents
  else if components.any fun c => isNonPureRefrigerant c.1 then
    .error .invalidComponent
  else if components.any fun c => decide (c.2 ≤ 0 ∨ 1 ≤ c.2) then
    .error .invalidFraction
  else if |fractionSum components - 1| > 1 / 1000000 then
    .error .invalidFractionsSum
  else
    .ok ()

/-- Source `CustomMix::mole_based`: validate, then wrap unchanged. -/
def CustomMix.mole_based (components : Components) : Except CustomMixError CustomMix :=
  match CustomMix.validate components with
  | .error e => .error e
  | .ok _ => .ok (CustomMix.moleBased components)

/-- Source `CustomMix::mass_based`: validate, then wrap unchanged. -/
def CustomMix.mass_based (components : Components) : Except CustomMixError CustomMix :=
  match CustomMix.validate components with
  | .error e => .error e
  | .ok _ => .ok (CustomMix.massBased components)

/-- Source `CustomMix::to_mole_based`, parametrized by the backend molar-mass oracle
`M` (`CustomMix::molar_mass` unwraps the backend collaborator): a mass-based
map is cloned, each fraction divided by its component's molar mass while the
quotients are summed, then each quotient divided by the sum; any other
mixture is cloned unchanged. -/
def CustomMix.to_mole_based (M : CustomMixComponent → ℚ) : CustomMix → CustomMix
  | CustomMix.massBased c =>
      let comps := c.map fun p => (p.1, p.2 / M p.1)
      let s := fractionSum comps
      CustomMix.moleBased (comps.map fun p => (p.1, p.2 / s))
  | m => m

/-- Source `CustomMix::components`: the component map of either variant. -/
def CustomMix.components : CustomMix → Components
  | CustomMix.moleBased c => c
  | CustomMix.massBased c => c

/-- Unnormalized mole-amount sum of a mass-based map under molar masses `M`. -/
def moleFractionSum (M : CustomMixComponent → ℚ) (cs : Components) : ℚ :=
  (cs.map fun c => c.2 / M c.1).sum

theorem isNonPureRefrigerant_iff (c : CustomMixComponent) :
    isNonPureRefrigerant c = true
      ↔ ∃ r, c = CustomMixComponent.refrigerant r
          ∧ r.category ≠ RefrigerantCategory.pure := by
  cases c <;> simp [isNonPureRefrigerant]

theorem sum_map_div (l : List ℚ) (s : ℚ) :
    (l.map fun x => x / s).sum = l.sum / s := by
  induction l with
  | nil => simp
  | cons a t ih => simp [ih, add_div]

theorem mole_based_error_iff (cs : Components) (e : CustomMixError) :
    CustomMix.mole_based cs = .error e ↔ CustomMix.validate cs = .error e := by
  unfold CustomMix.mole_based
  cases h : CustomMix.validate cs with
  | error e0 => simp
  | ok u => simp

theorem mass_based_error_iff (cs : Components) (e : CustomMixError) :
    CustomMix.mass_based cs = .error e ↔ CustomMix.validate cs = .error e := by
  unfold CustomMix.mass_based
  cases h : CustomMix.validate cs with
  | error e0 => simp
  | ok u => simp

theorem mole_based_ok_iff (cs : Components) :
    CustomMix.mole_based cs = .ok (CustomMix.moleBased cs)
      ↔ CustomMix.validate cs = .ok () := by
  unfold CustomMix.mole_based
  cases h : CustomMix.validate cs with
  | error e0 => simp
  | ok u => cases u; simp

theorem mass_based_ok_iff (cs : Components) :
    CustomMix.mass_based cs = .ok (CustomMix.massBased cs)
      ↔ CustomMix.validate cs = .ok () := by
  unfold CustomMix.mass_based
  cases h : CustomMix.validate cs with
  | error e0 => simp
  | ok u => cases u; simp

theorem validate_notEnough_iff (cs : Components) :
    CustomMix.validate cs = .error .notEnoughComponents ↔ cs.length < 2 := by
  unfold CustomMix.validate
  split_ifs with h1 h2 h3 h4
  · exact iff_of_true rfl h1
  · exact iff_of_false (by simp) h1
  · exact iff_of_false (by simp) h1
  · exact iff_of_false (by simp) h1
  · exact iff_of_false (by simp) h1

theorem validate_invalidComponent_iff (cs : Components) :
    CustomMix.validate cs = .error .invalidComponent
      ↔ ¬ cs.length < 2 ∧ (cs.any fun c => isNonPureRefrigerant c.1) = true := by
  unfold CustomMix.validate
  split_ifs with h1 h2 h3 h4
  · exact iff_of_false (by simp) fun h => h.1 h1
  · exact iff_of_true rfl ⟨h1, h2⟩
  · exact iff_of_false (by simp) fun h => h2 h.2
  · exact iff_of_false (by simp) fun h => h2 h.2
  · exact iff_of_false (by simp) fun h => h2 h.2

theorem validate_invalidFraction_iff (cs : Components) :
    CustomMix.validate cs = .error .invalidFraction
      ↔ ¬ cs.length < 2 ∧ ¬ (cs.any fun c => isNonPureRefrigerant c.1) = true
        ∧ (cs.any fun c => decide (c.2 ≤ 0 ∨ 1 ≤ c.2)) = true := by
  unfold CustomMix.validate
  split_ifs with h1 h2 h3 h4
  · exact iff_of_false (by simp) fun h => h.1 h1
  · exact iff_of_false (by simp) fun h => h.2.1 h2
  · exact iff_of_true rfl ⟨h1, h2, h3⟩
  · exact iff_of_false (by simp) fun h => h3 h.2.2
  · exact iff_of_false (by simp) fun h => h3 h.2.2

theorem validate_invalidSum_iff (cs : Components) :
    CustomMix.validate cs = .error .invalidFractionsSum
      ↔ ¬ cs.length < 2 ∧ ¬ (cs.any fun c => isNonPureRefrigerant c.1) = true
        ∧ ¬ (cs.any fun c => decide (c.2 ≤ 0 ∨ 1 ≤ c.2)) = true
        ∧ 1 / 1000000 < |fractionSum cs - 1| := by
  unfold CustomMix.validate
  split_ifs with h1 h2 h3 h4
  · exact iff_of_false (by simp) fun h => h.1 h1
  · exact iff_of_false (by simp) fun h => h.2.1 h2
  · exact iff_of_false (by simp) fun h => h.2.2.1 h3
  · exact iff_of_true rfl ⟨h1, h2, h3, h4⟩
  · exact iff_of_false (by simp) fun h => h4 h.2.2.2

theorem validate_ok_iff (cs : Components) :
    CustomMix.validate cs = .ok ()
      ↔ ¬ cs.length < 2 ∧ ¬ (cs.any fun c => isNonPureRefrigerant c.1) = true
        ∧ ¬ (cs.any fun c => decide (c.2 ≤ 0 ∨ 1 ≤ c.2)) = true
        ∧ ¬ 1 / 1000000 < |fractionSum cs - 1| := by
  unfold CustomMix.validate
  split_ifs with h1 h2 h3 h4
  · exact iff_of_false (by simp) fun h => h.1 h1
  · exact iff_of_false (by simp) fun h => h.2.1 h2
  · exact iff_of_false (by simp) fun h => h.2.2.1 h3
  · exact iff_of_false (by simp) fun h => h.2.2.2 h4
  · exact iff_of_true rfl ⟨h1, h2, h3, h4⟩

/-- C1: `CustomMix::mole_based` and `CustomMix::mass_based` run the same
validation and agree on the outcome: not-enough-components iff there are
fewer than two (distinct) components; else invalid-component iff some
component is a refrigerant whose category is not pure; else invalid-fraction
iff some fraction is `≤ 0` or `≥ 1`; else invalid-fractions-sum iff the
fraction sum differs from 1 by more than `1e-6`; otherwise both succeed,
wrapping the component map unchanged in their respective variant. -/
theorem custom_mix_construction_validation (cs : Components)
    (hkeys : (cs.map Prod.fst).Nodup) :
    ((CustomMix.mole_based cs = .error .notEnoughComponents
        ∧ CustomMix.mass_based cs = .error .notEnoughComponents)
      ↔ cs.length < 2)
    ∧ ((CustomMix.mole_based cs = .error .invalidComponent
        ∧ CustomMix.mass_based cs = .error .invalidComponent)
      ↔ 2 ≤ cs.length
        ∧ ∃ c ∈ cs, ∃ r, c.1 = CustomMixComponent.refrigerant r
            ∧ r.category ≠ RefrigerantCategory.pure)
    ∧ ((CustomMix.mole_based cs = .error .invalidFraction
        ∧ CustomMix.mass_based cs = .error .invalidFraction)
      ↔ 2 ≤ cs.length
        ∧ (∀ c ∈ cs, ∀ r, c.1 = CustomMixComponent.refrigerant r →
            r.category = RefrigerantCategory.pure)
        ∧ ∃ c ∈ cs, c.2 ≤ 0 ∨ 1 ≤ c.2)
    ∧ ((CustomMix.mole_based cs = .error .invalidFractionsSum
        ∧ CustomMix.mass_based cs = .error .invalidFractionsSum)
      ↔ 2 ≤ cs.length
        ∧ (∀ c ∈ cs, ∀ r, c.1 = CustomMixComponent.refrigerant r →
            r.category = RefrigerantCategory.pure)
        ∧ (∀ c ∈ cs, 0 < c.2 ∧ c.2 < 1)
        ∧ 1 / 1000000 < |fractionSum cs - 1|)
    ∧ ((CustomMix.mole_based cs = .ok (CustomMix.moleBased cs)
        ∧ CustomMix.mass_based cs = .ok (CustomMix.massBased cs))
      ↔ 2 ≤ cs.length
        ∧ (∀ c ∈ cs, ∀ r, c.1 = CustomMixComponent.refrigerant r →
            r.category = RefrigerantCategory.pure)
        ∧ (∀ c ∈ cs, 0 < c.2 ∧ c.2 < 1)
        ∧ |fractionSum cs - 1| ≤ 1 / 1000000) := by
  have hcomp : (cs.any fun c => isNonPureRefrigerant c.1) = true
      ↔ ∃ c ∈ cs, ∃ r, c.1 = CustomMixComponent.refrigerant r
          ∧ r.category ≠ RefrigerantCategory.pure := by
    simp only [List.any_eq_true, isNonPureRefrigerant_iff]
  have hcompn : ¬ (cs.any fun c => isNonPureRefrigerant c.1) = true
      ↔ ∀ c ∈ cs, ∀ r, c.1 = CustomMixComponent.refrigerant r →
          r.category = RefrigerantCategory.pure := by
    rw [hcomp]
    constructor
    · intro h c hc r hr
      by_contra hcat
      exact h ⟨c, hc, r, hr, hcat⟩
    · rintro h ⟨c, hc, r, hr, hcat⟩
      exact hcat (h c hc r hr)
  have hfrac : (cs.any fun c => decide (c.2 ≤ 0 ∨ 1 ≤ c.2)) = true
      ↔ ∃ c ∈ cs, c.2 ≤ 0 ∨ 1 ≤ c.2 := by
    simp only [List.any_eq_true, decide_eq_true_eq]
  have hfracn : ¬ (cs.any fun c => decide (c.2 ≤ 0 ∨ 1 ≤ c.2)) = true
      ↔ ∀ c ∈ cs, 0 < c.2 ∧ c.2 < 1 := by
    rw [hfrac]
    push_neg
    constructor
    · intro h c hc
      exact ⟨(h c hc).1, (h c hc).2⟩
    · intro h c hc
      exact ⟨(h c hc).1, (h c hc).2⟩
  refine ⟨?_, ?_, ?_, ?_, ?_⟩
  · rw [mole_based_error_iff, mass_based_error_iff, and_self,
      validate_notEnough_iff]
  · rw [mole_based_error_iff, mass_based_error_iff, and_self,
      validate_invalidComponent_iff, hcomp, Nat.not_lt]
  · rw [mole_based_error_iff, mass_based_error_iff, and_self,
      validate_invalidFraction_iff, hcompn, hfrac, Nat.not_lt]
  · rw [mole_based_error_iff, mass_based_error_iff, and_self,
      validate_invalidSum_iff, hcompn, hfracn, Nat.not_lt]
  · rw [mole_based_ok_iff, mass_based_ok_iff, and_self, validate_ok_iff,
      hcompn, hfracn, Nat.not_lt, not_lt]

/-- Witness for C1: a valid water/ethanol map constructs both variants. -/
theorem custom_mix_construction_validation_witness :
    CustomMix.mole_based
        [(CustomMixComponent.pure Pure.water, 3/5),
         (CustomMixComponent.pure Pure.ethanol, 2/5)]
      = .ok (CustomMix.moleBased
        [(CustomMixComponent.pure Pure.water, 3/5),
         (CustomMixComponent.pure Pure.ethanol, 2/5)])
    ∧ CustomMix.mass_based
        [(CustomMixComponent.pure Pure.water, 3/5),
         (CustomMixComponent.pure Pure.ethanol, 2/5)]
      = .ok (CustomMix.massBased
        [(CustomMixComponent.pure Pure.water, 3/5),
         (CustomMixComponent.pure Pure.ethanol, 2/5)]) :=
  ((custom_mix_construction_validation _ (by decide)).2.2.2.2).mpr (by
    refine ⟨by norm_num, ?_, ?_, ?_⟩
    · intro c hc r hr
      simp at hc
      rcases hc with h | h <;> rw [h] at hr <;> simp at hr
    · intro c hc
      simp at hc
      rcases hc with h | h <;> rw [h] <;> norm_num
    · norm_num [fractionSum])

/-- C2: converting a mass-based mixture with fractions `m_i` and molar masses
`M_i` yields the mole-based mixture over the same components whose fraction
for component `i` is `(m_i / M_i) / Σ_j (m_j / M_j)`, and the resulting
fractions sum to 1.  (`to_mole_based` takes `&self` and clones, so the source
is never mutated; the embedding is accordingly a pure function of the
source mixture.) -/
theorem to_mole_based_mass_conversion (M : CustomMixComponent → ℚ)
    (cs : Components) (hM : ∀ c ∈ cs, 0 < M c.1) (hf : ∀ c ∈ cs, 0 < c.2)
    (hne : cs ≠ []) :
    CustomMix.to_mole_based M (CustomMix.massBased cs)
      = CustomMix.moleBased
          (cs.map fun c => (c.1, (c.2 / M c.1) / moleFractionSum M cs))
    ∧ fractionSum
        (CustomMix.to_mole_based M (CustomMix.massBased cs)).components = 1 := by
  have hsum : fractionSum (cs.map fun p => (p.1, p.2 / M p.1))
      = moleFractionSum M cs := by
    unfold fractionSum moleFractionSum
    rw [List.map_map]
    rfl
  have heq : CustomMix.to_mole_based M (CustomMix.massBased cs)
      = CustomMix.moleBased
          (cs.map fun c => (c.1, (c.2 / M c.1) / moleFractionSum M cs)) := by
    show CustomMix.moleBased
        ((cs.map fun p => (p.1, p.2 / M p.1)).map fun p =>
          (p.1, p.2 / fractionSum (cs.map fun p => (p.1, p.2 / M p.1)))) = _
    rw [hsum, List.map_map]
    rfl
  refine ⟨heq, ?_⟩
  rw [heq]
  have hpos : 0 < moleFractionSum M cs := by
    unfold moleFractionSum
    apply List.sum_pos
    · intro x hx
      rw [List.mem_map] at hx
      obtain ⟨c, hc, hcx⟩ := hx
      rw [← hcx]
      exact div_pos (hf c hc) (hM c hc)
    · simp [hne]
  unfold CustomMix.components fractionSum
  rw [List.map_map]
  have hcomp2 : ((fun c : CustomMixComponent × ℚ => c.2) ∘
      fun c : CustomMixComponent × ℚ => (c.1, c.2 / M c.1 / moleFractionSum M cs))
      = fun c : CustomMixComponent × ℚ => (c.2 / M c.1) / moleFractionSum M cs := rfl
  rw [hcomp2]
  have : (cs.map fun c : CustomMixComponent × ℚ =>
      (c.2 / M c.1) / moleFractionSum M cs)
      = ((cs.map fun c : CustomMixComponent × ℚ => c.2 / M c.1).map
          fun x => x / moleFractionSum M cs) := by
    rw [List.map_map]
    rfl
  rw [this, sum_map_div]
  exact div_self (ne_of_gt hpos)

/-- A concrete molar-mass oracle on the representative components. -/
def molarMassStub : CustomMixComponent → ℚ
  | .refrigerant .R32 => 13/250
  | .refrigerant .R125 => 3/25
  | _ => 9/500

/-- Witness for C2 on the mass-based R32/R125 half-and-half mixture. -/
theorem to_mole_based_mass_conversion_witness :
    CustomMix.to_mole_based molarMassStub (CustomMix.massBased
        [(CustomMixComponent.refrigerant Refrigerant.R32, 1/2),
         (CustomMixComponent.refrigerant Refrigerant.R125, 1/2)])
      = CustomMix.moleBased
          ([(CustomMixComponent.refrigerant Refrigerant.R32, 1/2),
            (CustomMixComponent.refrigerant Refrigerant.R125, 1/2)].map
            fun c => (c.1, (c.2 / molarMassStub c.1) /
              moleFractionSum molarMassStub
                [(CustomMixComponent.refrigerant Refrigerant.R32, 1/2),
                 (CustomMixComponent.refrigerant Refrigerant.R125, 1/2)]))
    ∧ fractionSum
        (CustomMix.to_mole_based molarMassStub (CustomMix.massBased
          [(CustomMixComponent.refrigerant Refrigerant.R32, 1/2),
           (CustomMixComponent.refrigerant Refrigerant.R125, 1/2)])).components
      = 1 :=
  to_mole_based_mass_conversion molarMassStub _
    (by
      intro c hc
      simp at hc
      rcases hc with h | h <;> rw [h] <;> norm_num [molarMassStub])
    (by
      intro c hc
      simp at hc
      rcases hc with h | h <;> rw [h] <;> norm_num)
    (by simp)

/-- C3: `to_mole_based` is idempotent: on a mole-based mixture it returns an
equal value, and applying it twice to any mixture equals applying it once. -/
theorem to_mole_based_idempotent (M : CustomMixComponent → ℚ) :
    (∀ cs : Components,
        CustomMix.to_mole_based M (CustomMix.moleBased cs)
          = CustomMix.moleBased cs)
    ∧ ∀ m : CustomMix,
        CustomMix.to_mole_based M (CustomMix.to_mole_based M m)
          = CustomMix.to_mole_based M m := by
  refine ⟨fun cs => rfl, fun m => ?_⟩
  cases m with
  | moleBased cs => rfl
  | massBased cs => rfl

/-! ## Fluid keyed inputs (src/rfluids/src/io/fluid_input.rs) -/

/-- Modelled from the spec: the fluid-parameter registry lives in the absent
source file `io/fluid_param.rs`; the variants used by the `FluidInput`
constructors are listed here as a closed code set. -/
inductive FluidParam
  | DMass
  | DMolar
  | HMass
  | HMolar
  | P
  | Q
  | SMass
  | SMolar
  | T
  | UMass
  | UMolar
deriving DecidableEq

/-- Modelled from the spec: the trivial (state-independent) parameter codes of
the absent `io/fluid_param.rs`, a separate code space from `FluidParam`. -/
inductive FluidTrivialParam
  | MolarMass
  | TCritical
  | PCritical
deriving DecidableEq

/-- A `uom` quantity stores its magnitude in the fixed SI unit in `.value`;
each quantity kind is its own type.  Mass density, kg/m³. -/
structure MassDensity where
  value : ℚ

/-- Mass-specific energy, J/kg. -/
structure AvailableEnergy where
  value : ℚ

/-- Mass-specific heat capacity, J/kg/K. -/
structure SpecificHeatCapacity where
  value : ℚ

/-- Molar concentration, mol/m³. -/
structure MolarConcentration where
  value : ℚ

/-- Molar energy, J/mol. -/
structure MolarEnergy where
  value : ℚ

/-- Molar heat capacity, J/mol/K. -/
structure MolarHeatCapacity where
  value : ℚ

/-- Pressure, Pa. -/
structure Pressure where
  value : ℚ

/-- Dimensionless ratio. -/
structure Ratio where
  value : ℚ

/-- Thermodynamic temperature, K. -/
structure ThermodynamicTemperature where
  value : ℚ

/-- Source `FluidInput`: the tuple struct `FluidInput(FluidParam, f64)`. -/
structure FluidInput where
  fst : FluidParam
  snd : ℚ
deriving DecidableEq

/-- Source `KeyedInput::key` for `FluidInput`: the stored parameter code. -/
def FluidInput.key (i : FluidInput) : FluidParam :=
  i.fst

/-- Source `KeyedInput::si_value` for `FluidInput`: the stored SI magnitude. -/
def FluidInput.si_value (i : FluidInput) : ℚ :=
  i.snd

/-- Source `FluidInput::density`. -/
def FluidInput.density (value : MassDensity) : FluidInput :=
  ⟨FluidParam.DMass, value.value⟩

/-- Source `FluidInput::enthalpy`. -/
def FluidInput.enthalpy (value : AvailableEnergy) : FluidInput :=
  ⟨FluidParam.HMass, value.value⟩

/-- Source `FluidInput::entropy`. -/
def FluidInput.entropy (value : SpecificHeatCapacity) : FluidInput :=
  ⟨FluidParam.SMass, value.value⟩

/-- Source `FluidInput::internal_energy`. -/
def FluidInput.internal_energy (value : AvailableEnergy) : FluidInput :=
  ⟨FluidParam.UMass, value.value⟩

/-- Source `FluidInput::molar_density`. -/
def FluidInput.molar_density (value : MolarConcentration) : FluidInput :=
  ⟨FluidParam.DMolar, value.value⟩

/-- Source `FluidInput::molar_enthalpy`. -/
def FluidInput.molar_enthalpy (value : MolarEnergy) : FluidInput :=
  ⟨FluidParam.HMolar, value.value⟩

/-- Source `FluidInput::molar_entropy`. -/
def FluidInput.molar_entropy (value : MolarHeatCapacity) : FluidInput :=
  ⟨FluidParam.SMolar, value.value⟩

/-- Source `FluidInput::molar_internal_energy`. -/
def FluidInput.molar_internal_energy (value : MolarEnergy) : FluidInput :=
  ⟨FluidParam.UMolar, value.value⟩

/-- Source `FluidInput::pressure`. -/
def FluidInput.pressure (value : Pressure) : FluidInput :=
  ⟨FluidParam.P, value.value⟩

/-- Source `FluidInput::quality`. -/
def FluidInput.quality (value : Ratio) : FluidInput :=
  ⟨FluidParam.Q, value.value⟩

/-- Source `FluidInput::temperature`. -/
def FluidInput.temperature (value : ThermodynamicTemperature) : FluidInput :=
  ⟨FluidParam.T, value.value⟩

/-- C9: every `FluidInput` constructor is total (it is a Lean function, so it
succeeds on every input value, with no range validation anywhere in its
definition), and the produced keyed input carries exactly the fixed parameter
code of the quantity and the SI magnitude of the argument. -/
theorem fluid_input_constructors_total_key_value :
    (∀ v : MassDensity, (FluidInput.density v).key = FluidParam.DMass
        ∧ (FluidInput.density v).si_value = v.value)
    ∧ (∀ v : AvailableEnergy, (FluidInput.enthalpy v).key = FluidParam.HMass
        ∧ (FluidInput.enthalpy v).si_value = v.value)
    ∧ (∀ v : SpecificHeatCapacity, (FluidInput.entropy v).key = FluidParam.SMass
        ∧ (FluidInput.entropy v).si_value = v.value)
    ∧ (∀ v : AvailableEnergy,
        (FluidInput.internal_energy v).key = FluidParam.UMass
        ∧ (FluidInput.internal_energy v).si_value = v.value)
    ∧ (∀ v : MolarConcentration,
        (FluidInput.molar_density v).key = FluidParam.DMolar
        ∧ (FluidInput.molar_density v).si_value = v.value)
    ∧ (∀ v : MolarEnergy, (FluidInput.molar_enthalpy v).key = FluidParam.HMolar
        ∧ (FluidInput.molar_enthalpy v).si_value = v.value)
    ∧ (∀ v : MolarHeatCapacity,
        (FluidInput.molar_entropy v).key = FluidParam.SMolar
        ∧ (FluidInput.molar_entropy v).si_value = v.value)
    ∧ (∀ v : MolarEnergy,
        (FluidInput.molar_internal_energy v).key = FluidParam.UMolar
        ∧ (FluidInput.molar_internal_energy v).si_value = v.value)
    ∧ (∀ v : Pressure, (FluidInput.pressure v).key = FluidParam.P
        ∧ (FluidInput.pressure v).si_value = v.value)
    ∧ (∀ v : Ratio, (FluidInput.quality v).key = FluidParam.Q
        ∧ (FluidInput.quality v).si_value = v.value)
    ∧ (∀ v : ThermodynamicTemperature,
        (FluidInput.temperature v).key = FluidParam.T
        ∧ (FluidInput.temperature v).si_value = v.value) :=
  ⟨fun _ => ⟨rfl, rfl⟩, fun _ => ⟨rfl, rfl⟩, fun _ => ⟨rfl, rfl⟩,
   fun _ => ⟨rfl, rfl⟩, fun _ => ⟨rfl, rfl⟩, fun _ => ⟨rfl, rfl⟩,
   fun _ => ⟨rfl, rfl⟩, fun _ => ⟨rfl, rfl⟩, fun _ => ⟨rfl, rfl⟩,
   fun _ => ⟨rfl, rfl⟩, fun _ => ⟨rfl, rfl⟩⟩

/-! ## Resolution Engine (src/rfluids/src/fluid/mod.rs)

The `Fluid` struct is in src, but the bodies of `update`, `output` and
`trivial_output` live in source files absent from src; those operations are
modelled from the spec (§4.4).  The backend collaborator (`AbstractState`)
is an injected deterministic oracle; each operation additionally reports
whether it invoked the backend. -/

/-- The backend collaborator boundary: deterministic outcomes for the three
query operations the engine relies on (spec §6).  Errors are surfaced as
strings, matching the backend error surface being treated as a black box. -/
structure AbstractState where
  updateResult : FluidParam → ℚ → FluidParam → ℚ → Except String Unit
  keyedOutputResult : FluidParam → ℚ → FluidParam → ℚ → FluidParam →
    Except String ℚ
  trivialOutputResult : FluidTrivialParam → Except String ℚ

/-- Modelled from the spec: `FluidUpdateRequest` (absent `fluid/common.rs`),
the pair of two keyed inputs of an applied update. -/
structure FluidUpdateRequest where
  key1 : FluidParam
  value1 : ℚ
  key2 : FluidParam
  value2 : ℚ
deriving DecidableEq

/-- The mutable fields of the `Fluid` struct: the last applied update request
and the two output caches (the substance identity and backend handle are
fixed per instance and live outside this state record). -/
structure FluidState where
  update_request : Option FluidUpdateRequest
  trivial_outputs : List (FluidTrivialParam × ℚ)
  outputs : List (FluidParam × ℚ)
deriving DecidableEq

/-- Association-list lookup standing in for `HashMap::get`. -/
def lookupCache {κ : Type} [DecidableEq κ] : List (κ × ℚ) → κ → Option ℚ
  | [], _ => none
  | (k0, v) :: rest, k => if k = k0 then some v else lookupCache rest k

/-- Errors returned by the engine: the duplicate-parameter-code request error
or an error surfaced verbatim from the backend. -/
inductive FluidError
  | invalidInputPair
  | backend (msg : String)
deriving DecidableEq

/-- Modelled from the spec: `Fluid::update` (body absent from src).  It
rejects two inputs sharing a parameter code before any backend call; else it
submits the pair to the backend; on success it stores the request, clears the
whole non-trivial cache and keeps the trivial cache; on backend failure the
state is untouched.  The second component reports whether the backend was
invoked. -/
def Fluid.update (B : AbstractState) (s : FluidState) (a b : FluidInput) :
    Except FluidError FluidState × Bool :=
  if a.key = b.key then (.error .invalidInputPair, false)
  else
    match B.updateResult a.key a.si_value b.key b.si_value with
    | .error e => (.error (.backend e), true)
    | .ok _ =>
        (.ok { update_request := some ⟨a.key, a.si_value, b.key, b.si_value⟩,
               trivial_outputs := s.trivial_outputs,
               outputs := [] }, true)

/-- Modelled from the spec: `Fluid::output` (body absent from src), callable
only in defined state (typestate): cache hit returns the cached value without
touching the backend; on a miss the backend is queried with the current
request, a success is cached and returned, a failure is surfaced and nothing
is cached.  Returns (result, next state, backend invoked). -/
def Fluid.output (B : AbstractState) (s : FluidState) (p : FluidParam) :
    Except FluidError ℚ × FluidState × Bool :=
  match lookupCache s.outputs p with
  | some v => (.ok v, s, false)
  | none =>
      match s.update_request with
      | none => (.error .invalidInputPair, s, false)
      | some req =>
          match B.keyedOutputResult req.key1 req.value1 req.key2 req.value2 p with
          | .error e => (.error (.backend e), s, true)
          | .ok v =>
              (.ok v, { s with outputs := (p, v) :: s.outputs }, true)

/-- Modelled from the spec: `Fluid::trivial_output` (body absent from src):
the same cache-or-compute pattern against the separate trivial cache,
available in either state. -/
def Fluid.trivial_output (B : AbstractState) (s : FluidState)
    (p : FluidTrivialParam) : Except FluidError ℚ × FluidState × Bool :=
  match lookupCache s.trivial_outputs p with
  | some v => (.ok v, s, false)
  | none =>
      match B.trivialOutputResult p with
      | .error e => (.error (.backend e), s, true)
      | .ok v =>
          (.ok v, { s with trivial_outputs := (p, v) :: s.trivial_outputs }, true)

/-- C4: (1) after a first `output` call computed a value via the backend, a
second call for the same parameter returns the same value from the cache
without invoking the backend; (2) a successful `update` clears the whole
non-trivial cache — so the next `output` call for any parameter invokes the
backend — while leaving the trivial cache intact; (3) a computed
trivial-output cache entry is reused without invoking the backend. -/
theorem fluid_cache_discipline (B : AbstractState) (s : FluidState)
    (p : FluidParam) :
    (∀ v s1, Fluid.output B s p = (.ok v, s1, true) →
        Fluid.output B s1 p = (.ok v, s1, false))
    ∧ (∀ a b s2 c, Fluid.update B s a b = (.ok s2, c) →
        s2.outputs = [] ∧ s2.trivial_outputs = s.trivial_outputs
          ∧ (Fluid.output B s2 p).2.2 = true)
    ∧ (∀ t v s3, Fluid.trivial_output B s t = (.ok v, s3, true) →
        Fluid.trivial_output B s3 t = (.ok v, s3, false)) := by
  refine ⟨?_, ?_, ?_⟩
  · intro v s1 h
    unfold Fluid.output at h ⊢
    rcases hl : lookupCache s.outputs p with _ | v0
    · rcases hr : s.update_request with _ | req
      · simp only [hl, hr] at h
        simp at h
      · rcases hk : B.keyedOutputResult req.key1 req.value1 req.key2 req.value2 p
          with e | v1
        · simp only [hl, hr, hk] at h
          simp at h
        · simp only [hl, hr, hk] at h
          simp only [Prod.mk.injEq, Except.ok.injEq] at h
          obtain ⟨hv, hs, _⟩ := h
          subst hv
          rw [← hs]
          simp [lookupCache]
    · simp only [hl] at h
      simp at h
  · intro a b s2 c h
    unfold Fluid.update at h
    by_cases hab : a.key = b.key
    · rw [if_pos hab] at h
      simp at h
    · rw [if_neg hab] at h
      rcases hu : B.updateResult a.key a.si_value b.key b.si_value with e | u
      · simp only [hu] at h
        simp at h
      · simp only [hu] at h
        simp only [Prod.mk.injEq, Except.ok.injEq] at h
        obtain ⟨hs2, _⟩ := h
        rw [← hs2]
        refine ⟨rfl, rfl, ?_⟩
        unfold Fluid.output
        simp only [lookupCache]
        rcases hk : B.keyedOutputResult a.key a.si_value b.key b.si_value p
          with e | v1 <;> simp [hk]
  · intro t v s3 h
    unfold Fluid.trivial_output at h ⊢
    rcases hl : lookupCache s.trivial_outputs t with _ | v0
    · rcases hk : B.trivialOutputResult t with e | v1
      · simp only [hl, hk] at h
        simp at h
      · simp only [hl, hk] at h
        simp only [Prod.mk.injEq, Except.ok.injEq] at h
        obtain ⟨hv, hs, _⟩ := h
        subst hv
        rw [← hs]
        simp [lookupCache]
    · simp only [hl] at h
      simp at h

/-- A deterministic call-counting-style stub backend: every operation
succeeds, keyed outputs are 7, trivial outputs are 3. -/
def stubBackend : AbstractState :=
  ⟨fun _ _ _ _ => .ok (), fun _ _ _ _ _ => .ok 7, fun _ => .ok 3⟩

/-- A defined-state engine state with empty caches, as produced by a first
successful update of pressure and temperature on the stub backend. -/
def definedState : FluidState :=
  ⟨some ⟨FluidParam.P, 101325, FluidParam.T, 29315/100⟩, [], []⟩

/-- Witness for C4 on the stub backend: the first `output` call computes 7
through the backend, and the discipline theorem then yields the cached second
call, the cache-clearing update and the trivial-cache reuse, all at concrete
inputs. -/
theorem fluid_cache_discipline_witness :
    Fluid.output stubBackend
        ⟨definedState.update_request, [], [(FluidParam.DMass, 7)]⟩
        FluidParam.DMass
      = (.ok 7, ⟨definedState.update_request, [], [(FluidParam.DMass, 7)]⟩,
          false)
    ∧ ((⟨definedState.update_request, [], []⟩ : FluidState).outputs = []
        ∧ (⟨definedState.update_request, [], []⟩ : FluidState).trivial_outputs
          = definedState.trivial_outputs
        ∧ (Fluid.output stubBackend ⟨definedState.update_request, [], []⟩
            FluidParam.DMass).2.2 = true)
    ∧ Fluid.trivial_output stubBackend
        ⟨definedState.update_request, [(FluidTrivialParam.MolarMass, 3)], []⟩
        FluidTrivialParam.MolarMass
      = (.ok 3,
          ⟨definedState.update_request, [(FluidTrivialParam.MolarMass, 3)], []⟩,
          false) :=
  ⟨(fluid_cache_discipline stubBackend definedState FluidParam.DMass).1 7
      ⟨definedState.update_request, [], [(FluidParam.DMass, 7)]⟩ rfl,
   (fluid_cache_discipline stubBackend definedState FluidParam.DMass).2.1
      (FluidInput.pressure ⟨101325⟩)
      (FluidInput.temperature ⟨29315/100⟩)
      ⟨definedState.update_request, [], []⟩ true rfl,
   (fluid_cache_discipline stubBackend definedState FluidParam.DMass).2.2
      FluidTrivialParam.MolarMass 3
      ⟨definedState.update_request, [(FluidTrivialParam.MolarMass, 3)], []⟩
      rfl⟩

/-- C5: an update request whose two keyed inputs share a parameter code fails
with the duplicate-parameter-code request error and the backend is never
invoked. -/
theorem fluid_update_duplicate_key_fails (B : AbstractState) (s : FluidState)
    (a b : FluidInput) (h : a.key = b.key) :
    Fluid.update B s a b = (.error .invalidInputPair, false) := by
  unfold Fluid.update
  rw [if_pos h]

/-- Witness for C5: two pressure inputs with different values share the code
`P`, and the update is rejected without a backend call. -/
theorem fluid_update_duplicate_key_fails_witness :
    Fluid.update stubBackend definedState (FluidInput.pressure ⟨101325⟩)
        (FluidInput.pressure ⟨202650⟩)
      = (.error .invalidInputPair, false) :=
  fluid_update_duplicate_key_fails stubBackend definedState
    (FluidInput.pressure ⟨101325⟩) (FluidInput.pressure ⟨202650⟩) rfl

/-! ## Fluid construction and the unwrap panic sites (C6)

`impl From<Substance> for Fluid<UndefinedState>` (src/rfluids/src/fluid/mod.rs
lines 38-53) calls `.unwrap()` on `AbstractState::new` and on
`set_fractions`, and `CustomMix::molar_mass` (custom_mix.rs lines 176-181)
calls `.unwrap()` on both backend calls.  A Rust `unwrap` of an error panics;
the embedding returns `Option.none` for a panic, with the backend outcomes
injected as parameters. -/

/-- Modelled from the spec: the `Substance` variant set (absent
`substance/mod.rs`), per §3; only the binary-mixture payload used by
`From<Substance>` is carried. -/
inductive Substance
  | pure (p : Pure)
  | incompPure
  | refrigerant (r : Refrigerant)
  | predefinedMix
  | binaryMix (fraction : ℚ)
  | customMix (m : CustomMix)

/-- The freshly constructed undefined-state `Fluid` fields: no update request
and empty caches. -/
def initialFluidState : FluidState :=
  ⟨none, [], []⟩

/-- Source `impl From<Substance> for Fluid<UndefinedState>`:
`AbstractState::new(value.backend_name(), value).unwrap()`, then for a binary
mixture `set_fractions(&[fraction]).unwrap()`; `none` embeds the panic of an
`unwrap` on a backend error. -/
def fluidFromSubstance (newResult : Except String AbstractState)
    (setFractionsResult : Except String Unit) (s : Substance) :
    Option FluidState :=
  match newResult with
  | .error _ => none
  | .ok _ =>
      match s with
      | .binaryMix _ =>
          match setFractionsResult with
          | .error _ => none
          | .ok _ => some initialFluidState
      | _ => some initialFluidState

/-- Source `CustomMix::molar_mass`:
`AbstractState::new(..).unwrap().keyed_output(MolarMass).unwrap()`; `none`
embeds the panic of an `unwrap` on a backend error. -/
def CustomMix.molar_mass (newResult : Except String AbstractState)
    (keyedOutputResult : Except String ℚ) : Option ℚ :=
  match newResult with
  | .error _ => none
  | .ok _ =>
      match keyedOutputResult with
      | .error _ => none
      | .ok v => some v

/-- C6 counterexample: a backend construction failure makes
`From<Substance> for Fluid` panic (embedded `none`) instead of returning a
typed error; likewise a fraction-setting failure for a binary mixture, and a
backend failure inside `CustomMix::molar_mass` (reached from
`to_mole_based`). -/
theorem fluid_construction_panics_on_backend_failure :
    fluidFromSubstance (.error ("construction failed")) (.ok ())
        (Substance.pure Pure.water) = none
    ∧ fluidFromSubstance (.ok stubBackend) (.error ("invalid fractions"))
        (Substance.binaryMix (1/2)) = none
    ∧ CustomMix.molar_mass (.error ("construction failed")) (.ok (9/500))
        = none :=
  ⟨rfl, rfl, rfl⟩

/-- C6 amended: whenever the backend collaborator calls succeed — which the
code treats as guaranteed for substances validated at construction —
constructing a `Fluid` from any `Substance` and the molar-mass lookup used by
`to_mole_based` complete without panicking; a backend failure at these two
sites is unwrapped (a panic), not returned as a typed error. -/
theorem fluid_construction_no_panic_on_backend_success
    (n : Except String AbstractState) (f : Except String Unit) (s : Substance)
    (k : Except String ℚ) (st : AbstractState) (v : ℚ)
    (hn : n = .ok st) (hf : f = .ok ()) (hk : k = .ok v) :
    fluidFromSubstance n f s = some initialFluidState
    ∧ CustomMix.molar_mass n k = some v := by
  subst hn
  subst hf
  subst hk
  exact ⟨by cases s <;> rfl, rfl⟩

/-- Witness for the amended C6 on the stub backend. -/
theorem fluid_construction_no_panic_on_backend_success_witness :
    fluidFromSubstance (.ok stubBackend) (.ok ()) (Substance.binaryMix (1/2))
      = some initialFluidState
    ∧ CustomMix.molar_mass (.ok stubBackend) (.ok (9/500)) = some (9/500) :=
  fluid_construction_no_panic_on_backend_success _ _ _ _ stubBackend (9/500)
    rfl rfl rfl

end Rfluids
